import Mathlib

/-!
# arb-node: startup orchestration and supervision

A shallow embedding of `packages/arb-rpc-node/cmd/arb-node/arb-node.go`.

`startup` is one long effectful Go function.  It is embedded as a function from a `World`
(the answers of every collaborator the function calls: flag parsing, the feed client, the
L1 client, the monitor, the keystore, the transaction database, the Go scheduler) to a
`Run`: how the call ended and the ordered list of effects it performed.

* Go `error` values are `Option GoErr` (`none` is `nil`).
* `defer` is an explicit LIFO list of effects that `ret` appends when the function returns.
* `log.Fatal()...Msg` (zerolog) writes the message and calls `os.Exit(1)`; deferred calls do
  not run.
* The two unbounded waits, the inbox reader retry loop and the final `select`, take fuel;
  running out of fuel is reported as `Exit.pending`, never as a result.
-/

namespace ArbNode

/-! ## Data -/

/-- Go `time.Duration`: a signed count of nanoseconds. -/
abbrev Duration := Int

/-- Go `time.Millisecond`. -/
def Millisecond : Duration := 1000000

/-- Go `time.Second`. -/
def Second : Duration := 1000000000

/-- A non-nil Go error, identified by its message. -/
structure GoErr where
  msg : String
  deriving DecidableEq, Repr

/-- The `errors.New` constructor of `github.com/pkg/errors`. -/
def errorsNew (msg : String) : GoErr := ⟨msg⟩

/-- The `errors.Wrap` function of `github.com/pkg/errors`: the message is put in front. -/
def errorsWrap (err : GoErr) (msg : String) : GoErr := ⟨msg ++ ": " ++ err.msg⟩

/-- A 20-byte address (`common.Address`), as the number its bytes spell. -/
structure Address where
  raw : Nat
  deriving DecidableEq, Repr

/-- The L1 client handle returned by `ethutils.NewRPCEthClient`. -/
structure EthClient where
  id : Nat
  deriving DecidableEq, Repr

/-- The `mon.Core` handle. -/
structure CoreHandle where
  id : Nat
  deriving DecidableEq, Repr

/-- The result of `mon.Storage.GetNodeStore()`. -/
structure NodeStore where
  id : Nat
  deriving DecidableEq, Repr

/-- The `*monitor.Monitor` returned by `monitor.NewMonitor`. -/
structure Monitor where
  core : CoreHandle
  nodeStore : NodeStore
  deriving DecidableEq, Repr

/-- The `*monitor.InboxReader` returned by `mon.StartInboxReader`. -/
structure InboxReader where
  id : Nat
  deriving DecidableEq, Repr

/-- The `*bind.TransactOpts` returned by `cmdhelp.GetKeystore`; `source` is `auth.From`. -/
structure Auth where
  source : Address
  deriving DecidableEq, Repr

/-- The `dataSigner` function value returned by `cmdhelp.GetKeystore`. -/
structure DataSigner where
  id : Nat
  deriving DecidableEq, Repr

/-- The `*txdb.TxDB` handle returned by `txdb.New`. -/
structure TxDB where
  id : Nat
  deriving DecidableEq, Repr

/-- The batcher returned by `rpc.SetupBatcher`. -/
structure Batcher where
  id : Nat
  deriving DecidableEq, Repr

/-- The server returned by `web3.GenerateWeb3Server`. -/
structure Web3Server where
  id : Nat
  deriving DecidableEq, Repr

/-- The `sequencerFeed` channel: the local one made with `make(chan ..., 128)`, or the one
returned by `broadcastClient.Connect()`. -/
inductive Feed where
  | fresh (capacity : Nat)
  | connected (id : Nat)
  deriving DecidableEq, Repr

/-- The value of `utils.ParseRollupCommand(fs, 0)`. -/
structure RollupArgs where
  validatorFolder : String
  ethURL : String
  address : Address
  deriving DecidableEq, Repr

/-- The opaque value of `cmdhelp.AddWalletFlags(fs)` after parsing. -/
structure WalletArgs where
  id : Nat
  deriving DecidableEq, Repr

/-- The flag set after `fs.Parse`: every flag declared in `startup` (lines 89-114) and the
positional arguments that remain (`fs.NArg()` is `args.length`). -/
structure Flags where
  walletArgs : WalletArgs
  keepPendingState : Bool
  sequencerMode : Bool
  waitToCatchUp : Bool
  delayedMessagesTargetDelay : Int
  disablePrimaryCheck : Bool
  disableOpenEthereumCheck : Bool
  healthcheckMetrics : Bool
  healthcheckRPC : String
  maxBatchTime : Int
  inboxAddressStr : String
  forwardTxURL : String
  sequencerURL : String
  feedOutputAddr : String
  feedOutputPort : String
  feedOutputPingInterval : Duration
  feedOutputTimeout : Duration
  enablePProf : Bool
  gethLogLevel : String
  arbLogLevel : String
  args : List String
  deriving DecidableEq, Repr

/-- The flag set when no flag is given on the command line: every flag at the default
written in its declaration (lines 90-113).  The wallet and log flags are declared by
`cmdhelp`, so their values are parameters. -/
def defaultFlags (walletArgs : WalletArgs) (gethLogLevel arbLogLevel : String)
    (args : List String) : Flags where
  walletArgs := walletArgs
  keepPendingState := false
  sequencerMode := false
  waitToCatchUp := false
  delayedMessagesTargetDelay := 12
  disablePrimaryCheck := false
  disableOpenEthereumCheck := false
  healthcheckMetrics := false
  healthcheckRPC := ""
  maxBatchTime := 10
  inboxAddressStr := ""
  forwardTxURL := ""
  sequencerURL := ""
  feedOutputAddr := "0.0.0.0"
  feedOutputPort := "9642"
  feedOutputPingInterval := 5 * Second
  feedOutputTimeout := 15 * Second
  enablePProf := false
  gethLogLevel := gethLogLevel
  arbLogLevel := arbLogLevel
  args := args

/-- The four values of `rpc.BatcherMode` that `startup` builds (lines 213, 241, 257, 259). -/
inductive BatcherMode where
  | forwarder (nodeURL : String)
  | sequencer (auth : Auth) (core : CoreHandle) (inboxReader : InboxReader)
      (delayedMessagesTargetDelay : Int)
  | stateful (auth : Auth) (inboxAddress : Address)
  | stateless (auth : Auth) (inboxAddress : Address)
  deriving DecidableEq, Repr

/-- The `broadcaster.Settings` struct; the Go zero value is `BroadcasterSettings.zero`. -/
structure BroadcasterSettings where
  addr : String
  workers : Int
  queue : Int
  ioReadWriteTimeout : Duration
  clientPingInterval : Duration
  clientNoResponseTimeout : Duration
  deriving DecidableEq, Repr

/-- The Go zero value of `broadcaster.Settings` (line 208, `var broadcasterSettings`). -/
def BroadcasterSettings.zero : BroadcasterSettings := ⟨"", 0, 0, 0, 0, 0⟩

/-- A `nodehealth.Log` entry as `startup` fills it in: unset fields are Go zero values. -/
structure HealthLog where
  config : Bool
  var : String
  valBool : Bool
  valStr : String
  deriving DecidableEq, Repr

/-- The zerolog level of a log line; `noLevel` is `logger.Log()`. -/
inductive Level where
  | debug | info | warn | error | fatal | noLevel
  deriving DecidableEq, Repr

/-- Modelled from the spec: what the error channel returned by `txdb.New` delivers; `txdb` is
not among the sources.  Section 4.7: "Any value received on this channel after startup is a
`BackgroundFailure`", so a value on the channel is an error, never `nil`. -/
abbrev BackgroundFailure := GoErr

/-- The case of the final `select` (lines 300-307) that was taken, with the value received.
The only sender on `errChan` is the goroutine of lines 293-298, which sends only when
`err != nil`, so that value is an error too. -/
inductive SelectEvent where
  | txDBErr (err : BackgroundFailure)
  | rpcErr (err : GoErr)
  | cancel
  deriving DecidableEq, Repr

/-- One observable action of `startup`, in source order of appearance. -/
inductive Effect where
  | printf (format : String)
  | log (level : Level) (msg : String)
  | cancelFunc
  | feedConnect (url : String)
  | goListenAndServe (addr : String)
  | newRPCEthClient (url : String)
  | chainID
  | newMonitor (dbPath contractFile : String)
  | monClose
  | goStartNodeHealthCheck
  | healthSend (entry : HealthLog)
  | nodehealthInit
  | startInboxReader (attempt : Nat) (started : Bool)
  | sleep (d : Duration)
  | getKeystore (validatorFolder : String)
  | waitForBalance (source : Address)
  | txdbNew (pollInterval : Duration)
  | dbClose
  | waitToCatchUp
  | setupBatcher (maxBatchTime : Duration) (mode : BatcherMode)
      (dataSigner : Option DataSigner) (settings : BroadcasterSettings)
  | newServer
  | generateWeb3Server
  | goLaunchPublicServer (port wsPort : String)
  | selectRecv (ev : SelectEvent)
  deriving DecidableEq, Repr

/-- How a call of `startup` ends. -/
inductive Exit where
  | returned (err : Option GoErr)
  | osExit (code : Nat)
  | pending
  deriving DecidableEq, Repr

/-- A finished (or fuel-bounded) call: how it ended and what it did, in order. -/
structure Run where
  exit : Exit
  trace : List Effect
  deriving DecidableEq, Repr

/-- The state of the three channels of the final `select` at one instant: the value waiting
on `txDBErrChan`, the value waiting on `errChan`, whether `cancelChan` is ready, and the
index the Go runtime draws when more than one case is ready. -/
structure Ready where
  txDBErr : Option BackgroundFailure
  rpcErr : Option GoErr
  cancel : Bool
  pick : Nat

/-- Every collaborator `startup` calls, as the answer it gives. -/
structure World where
  /-- The call `fs.Parse(os.Args[1:])`. -/
  parse : Except GoErr Flags
  /-- The call `cmdhelp.ParseLogFlags(gethLogLevel, arbLogLevel)`. -/
  parseLogFlags : String → String → Option GoErr
  /-- The call `broadcastclient.NewBroadcastClient(url, nil).Connect()`. -/
  connect : String → Except GoErr Feed
  /-- The call `utils.ParseRollupCommand(fs, 0)`, from the positional arguments. -/
  parseRollupCommand : List String → RollupArgs
  /-- The call `ethutils.NewRPCEthClient(url)`. -/
  newRPCEthClient : String → Except GoErr EthClient
  /-- The call `ethclint.ChainID(ctx)`. -/
  chainID : EthClient → Except GoErr Int
  /-- The call `filepath.Join(dir, name)`. -/
  filepathJoin : String → String → String
  /-- The call `monitor.NewMonitor(dbPath, contractFile)`. -/
  newMonitor : String → String → Except GoErr Monitor
  /-- The answer of the n-th call (from 0) of `mon.StartInboxReader`. -/
  startInboxReader : Nat → EthClient → Address → Feed → Except GoErr InboxReader
  /-- The call `cmdhelp.GetKeystore(validatorFolder, walletArgs, fs, l1ChainId)`. -/
  getKeystore : String → WalletArgs → Int → Except GoErr (Auth × Option DataSigner)
  /-- The call `common.HexToAddress(s)`. -/
  hexToAddress : String → Address
  /-- The call `ethbridge.WaitForBalance(ctx, client, tokenAddress, userAddress)`. -/
  waitForBalance : EthClient → Address → Address → Option GoErr
  /-- The call `txdb.New(ctx, core, nodeStore, address, pollInterval)`. -/
  txdbNew : CoreHandle → NodeStore → Address → Duration → Except GoErr TxDB
  /-- The call `rpc.SetupBatcher(...)`. -/
  setupBatcher : EthClient → Address → TxDB → Duration → BatcherMode → Option DataSigner →
    BroadcasterSettings → Except GoErr Batcher
  /-- The call `web3.GenerateWeb3Server(aggregator.NewServer(batch, address, db), ...)`. -/
  generateWeb3Server : Batcher → Address → TxDB → Except GoErr Web3Server
  /-- What the channels of the final `select` hold, instant by instant. -/
  timeline : Nat → Ready

/-! ## Sequencing -/

/-- A stretch of `startup`: it falls through to the next statement with a value, or it ends
the call.  Both carry the effects performed in the stretch. -/
inductive Step (α : Type) where
  | next (a : α) (trace : List Effect)
  | halt (e : Exit) (trace : List Effect)

/-- Puts effects performed earlier in front. -/
def Step.after {α : Type} (t : List Effect) : Step α → Step α
  | .next a t2 => .next a (t ++ t2)
  | .halt e t2 => .halt e (t ++ t2)

/-- Runs `k` after `s` unless `s` ended the call. -/
def Step.andThen {α β : Type} (s : Step α) (k : α → Step β) : Step β :=
  match s with
  | .next a t => (k a).after t
  | .halt e t => .halt e t

instance : Monad Step where
  pure a := .next a []
  bind := Step.andThen

/-- Performs effects and falls through. -/
def emit (es : List Effect) : Step Unit := .next () es

/-- A `return err` statement: the deferred calls run, last registered first. -/
def ret {α : Type} (defers : List Effect) (err : Option GoErr) : Step α :=
  .halt (.returned err) defers

/-- A `log.Fatal().Err(err).Msg(msg)` statement: the line is written, then `os.Exit(1)`. -/
def logFatal {α : Type} (msg : String) : Step α :=
  .halt (.osExit 1) [.log .fatal msg]

/-- The result of a stretch that cannot fall through. -/
def Step.run : Step Empty → Run
  | .halt e t => ⟨e, t⟩
  | .next a _ => nomatch a

/-! ## The stretches of `startup` -/

/-- The line written by the first `defer` of `startup` (line 84). -/
def shutdownLog : Effect := .log .noLevel "Cleanly shutting down node"

/-- The deferred calls once lines 84-86 have run, in the order they run on `return`. -/
def defers0 : List Effect := [.cancelFunc, shutdownLog]

/-- The deferred calls once `defer mon.Close()` (line 174) has run. -/
def defers1 : List Effect := .monClose :: defers0

/-- The deferred calls once `defer db.Close()` (line 267) has run. -/
def defers2 : List Effect := .dbClose :: defers1

/-- The three `fmt.Printf` calls of lines 122-124, by their format strings. -/
def usageLines : List Effect :=
  [.printf "usage      sequencer: arb-node --sequencer [optional arguments] %s %s",
   .printf "   or   primary node: arb-node --sequencer.addr=<sequencer address> --inbox=<inbox address> [optional arguments] %s %s",
   .printf "   or secondary node: arb-node --sequencer.addr=<sequencer address> [optional arguments] %s %s"]

/-- The error of line 125. -/
def invalidArguments : GoErr := errorsNew "invalid arguments"

/-- The error of line 224. -/
def missingInboxAddress : GoErr :=
  errorsNew "must submit inbox address via --inbox if not running in forwarder or sequencer mode"

/-- A Go `int64` product: the mathematical value wrapped to 64 bits, two's complement. -/
def wrapInt64 (x : Int) : Int := (x + 2 ^ 63) % 2 ^ 64 - 2 ^ 63

/-- Lines 116-130: parse the flags, check the arguments, parse the log flags. -/
def parseAndValidate (w : World) : Step Flags := do
  match w.parse with
  | .error err => ret defers0 (some (errorsWrap err "error parsing arguments"))
  | .ok f =>
    if f.args.length ≠ 3 ∨ (f.sequencerMode = false ∧ f.sequencerURL = "") then
      emit usageLines
      ret defers0 (some invalidArguments)
    match w.parseLogFlags f.gethLogLevel f.arbLogLevel with
    | some err => ret defers0 (some err)
    | none => pure f

/-- Lines 132-143: the sequencer feed channel, connected to the feed when the node is not
the sequencer. -/
def subscribeFeed (w : World) (f : Flags) : Step Feed := do
  let sequencerFeed := Feed.fresh 128
  if f.sequencerMode = false then
    if f.sequencerURL = "" then
      emit [.log .warn "Missing --sequencer-url so not subscribing to feed"]
      pure sequencerFeed
    else
      emit [.feedConnect f.sequencerURL]
      match w.connect f.sequencerURL with
      | .error _ => logFatal "unable to start broadcastclient"
      | .ok feed => pure feed
  else
    pure sequencerFeed

/-- Lines 184-193: the configuration entries pushed on `healthChan`, then `nodehealth.Init`. -/
def healthConfig (f : Flags) (rollupArgs : RollupArgs) : List Effect :=
  [.healthSend ⟨true, "healthcheckMetrics", f.healthcheckMetrics, ""⟩,
   .healthSend ⟨true, "disablePrimaryCheck", f.disablePrimaryCheck, ""⟩,
   .healthSend ⟨true, "disableOpenEthereumCheck", f.disableOpenEthereumCheck, ""⟩,
   .healthSend ⟨true, "healthcheckRPC", false, f.healthcheckRPC⟩]
  ++ (if f.forwardTxURL ≠ "" then
        [.healthSend ⟨true, "primaryHealthcheckRPC", false, f.forwardTxURL⟩] else [])
  ++ [.healthSend ⟨true, "openethereumHealthcheckRPC", false, rollupArgs.ethURL⟩,
      .nodehealthInit]

/-- Lines 145-193: profiling server, L1 client, chain id, monitor, health check. -/
def openChain (w : World) (f : Flags) : Step (RollupArgs × EthClient × Int × Monitor) := do
  if f.enablePProf then
    emit [.goListenAndServe "localhost:8081"]
  let rollupArgs := w.parseRollupCommand f.args
  emit [.newRPCEthClient rollupArgs.ethURL]
  let ethclint ← match w.newRPCEthClient rollupArgs.ethURL with
    | .error err => ret defers0 (some (errorsWrap err "error running NewRPcEthClient"))
    | .ok c => pure c
  emit [.chainID]
  let l1ChainId ← match w.chainID ethclint with
    | .error err => ret defers0 (some (errorsWrap err "error getting chain ID"))
    | .ok c => pure c
  emit [.log .debug "connected to l1 chain", .log .info "Launching arbitrum node"]
  let contractFile := w.filepathJoin rollupArgs.validatorFolder "arbos.mexe"
  let dbPath := w.filepathJoin rollupArgs.validatorFolder "checkpoint_db"
  emit [.newMonitor dbPath contractFile]
  let mon ← match w.newMonitor dbPath contractFile with
    | .error err => ret defers0 (some (errorsWrap err "error opening monitor"))
    | .ok m => pure m
  emit (.goStartNodeHealthCheck :: healthConfig f rollupArgs)
  pure (rollupArgs, ethclint, l1ChainId, mon)

/-- The three effects of one failed round of the retry loop (lines 197, 201-205). -/
def failedRound (attempt : Nat) : List Effect :=
  [.startInboxReader attempt false,
   .log .warn "failed to start inbox reader, waiting and retrying",
   .sleep (Second * 5)]

/-- Lines 195-206: start the inbox reader, sleeping 5 seconds and retrying on failure.
The argument `start n` is the answer of call number `n` of `mon.StartInboxReader`. -/
def inboxReaderLoop (start : Nat → Except GoErr InboxReader) : Nat → Nat → Step InboxReader
  | 0, _ => .halt .pending []
  | fuel + 1, attempt =>
    match start attempt with
    | .ok inboxReader => .next inboxReader [.startInboxReader attempt true]
    | .error _ => (inboxReaderLoop start fuel (attempt + 1)).after (failedRound attempt)

/-- The three variables set by lines 208-261. -/
structure ModeSelection where
  batcherMode : BatcherMode
  dataSigner : Option DataSigner
  broadcasterSettings : BroadcasterSettings
  deriving DecidableEq, Repr

/-- Lines 208-261: choose the batcher mode. -/
def selectBatcherMode (w : World) (f : Flags) (rollupArgs : RollupArgs) (ethclint : EthClient)
    (l1ChainId : Int) (mon : Monitor) (inboxReader : InboxReader) : Step ModeSelection := do
  if f.forwardTxURL ≠ "" then
    emit [.log .info "Arbitrum node starting in forwarder mode"]
    pure ⟨.forwarder f.forwardTxURL, none, .zero⟩
  else
    emit [.getKeystore rollupArgs.validatorFolder]
    let (auth, dataSigner) ←
      match w.getKeystore rollupArgs.validatorFolder f.walletArgs l1ChainId with
      | .error err => ret defers1 (some (errorsWrap err "error running GetKeystore"))
      | .ok r => pure r
    let inboxAddress ←
      if f.sequencerMode = false then
        if f.inboxAddressStr = "" then
          ret defers1 (some missingInboxAddress)
        else
          pure (w.hexToAddress f.inboxAddressStr)
      else
        pure (Address.mk 0)
    emit [.log .info "Arbitrum node submitting batches", .waitForBalance auth.source]
    match w.waitForBalance ethclint (Address.mk 0) auth.source with
    | some err => ret defers1 (some (errorsWrap err "error waiting for balance"))
    | none => pure ()
    if f.sequencerMode then
      pure ⟨.sequencer auth mon.core inboxReader f.delayedMessagesTargetDelay, dataSigner,
        ⟨f.feedOutputAddr ++ ":" ++ f.feedOutputPort, 128, 1, 2 * Second,
          f.feedOutputPingInterval, f.feedOutputTimeout⟩⟩
    else if f.keepPendingState then
      pure ⟨.stateful auth inboxAddress, dataSigner, .zero⟩
    else
      pure ⟨.stateless auth inboxAddress, dataSigner, .zero⟩

/-- Lines 263-298: open the transaction database, build the batcher and the servers, and
start the public server in its goroutine. -/
def launch (w : World) (f : Flags) (rollupArgs : RollupArgs) (ethclint : EthClient)
    (mon : Monitor) (sel : ModeSelection) : Step Unit := do
  emit [.txdbNew (100 * Millisecond)]
  let db ← match w.txdbNew mon.core mon.nodeStore rollupArgs.address (100 * Millisecond) with
    | .error err => ret defers1 (some (errorsWrap err "error opening txdb"))
    | .ok db => pure db
  if f.waitToCatchUp then
    emit [.waitToCatchUp]
  let maxBatchTime := wrapInt64 (f.maxBatchTime * Second)
  emit [.setupBatcher maxBatchTime sel.batcherMode sel.dataSigner sel.broadcasterSettings]
  let batch ← match w.setupBatcher ethclint rollupArgs.address db maxBatchTime sel.batcherMode
      sel.dataSigner sel.broadcasterSettings with
    | .error err => ret defers2 (some err)
    | .ok b => pure b
  emit [.newServer, .generateWeb3Server]
  match w.generateWeb3Server batch rollupArgs.address db with
  | .error err => ret defers2 (some err)
  | .ok _ => pure ()
  emit [.goLaunchPublicServer "8547" "8548"]

/-- The cases of the `select` that can proceed at one instant, in source order. -/
def readyCases (r : Ready) : List SelectEvent :=
  (match r.txDBErr with | some err => [.txDBErr err] | none => [])
  ++ (match r.rpcErr with | some err => [.rpcErr err] | none => [])
  ++ (if r.cancel then [.cancel] else [])

/-- The Go `select`: block until some case can proceed; when several can, take the one the
runtime draws. -/
def selectWait (timeline : Nat → Ready) : Nat → Nat → Option SelectEvent
  | 0, _ => none
  | fuel + 1, t =>
    match readyCases (timeline t) with
    | [] => selectWait timeline fuel (t + 1)
    | c :: cs => some ((c :: cs).getD ((timeline t).pick % (cs.length + 1)) c)

/-- The value returned by the case taken (lines 302, 304, 306). -/
def SelectEvent.result : SelectEvent → Option GoErr
  | .txDBErr err => some err
  | .rpcErr err => some err
  | .cancel => none

/-- Lines 300-307: the final three-way wait. -/
def supervise (w : World) (fuel : Nat) : Step Empty :=
  match selectWait w.timeline fuel 0 with
  | none => .halt .pending []
  | some ev => (ret defers2 ev.result).after [.selectRecv ev]

/-- Lines 263-307: everything after the batcher mode is chosen. -/
def launchAndSupervise (w : World) (f : Flags) (rollupArgs : RollupArgs) (ethclint : EthClient)
    (mon : Monitor) (sel : ModeSelection) (fuel : Nat) : Step Empty := do
  launch w f rollupArgs ethclint mon sel
  supervise w fuel

/-- The body of `startup` (lines 83-308). -/
def startupSteps (w : World) (fuel : Nat) : Step Empty := do
  let f ← parseAndValidate w
  let sequencerFeed ← subscribeFeed w f
  let (rollupArgs, ethclint, l1ChainId, mon) ← openChain w f
  let inboxReader ← inboxReaderLoop
    (fun n => w.startInboxReader n ethclint rollupArgs.address sequencerFeed) fuel 0
  let sel ← selectBatcherMode w f rollupArgs ethclint l1ChainId mon inboxReader
  launchAndSupervise w f rollupArgs ethclint mon sel fuel

/-- The function `startup`: how the call ends and the effects it performs. -/
def startup (w : World) (fuel : Nat) : Run := (startupSteps w fuel).run

/-! ## Reading a trace -/

/-- The duration of a `time.Sleep` effect. -/
def Effect.asSleep : Effect → Option Duration
  | .sleep d => some d
  | _ => none

/-- The call number and success of a `mon.StartInboxReader` effect. -/
def Effect.asAttempt : Effect → Option (Nat × Bool)
  | .startInboxReader n ok => some (n, ok)
  | _ => none

/-- The sleeps of a trace, in order. -/
def sleepsOf (t : List Effect) : List Duration := t.filterMap Effect.asSleep

/-- The calls of `mon.StartInboxReader` in a trace, in order: call number and success. -/
def attemptsOf (t : List Effect) : List (Nat × Bool) := t.filterMap Effect.asAttempt

/-- The mode passed by a `rpc.SetupBatcher` effect. -/
def Effect.asBatcherMode : Effect → Option BatcherMode
  | .setupBatcher _ mode _ _ => some mode
  | _ => none

/-- The effects that reach the network or the disk. -/
def Effect.netOrDisk : Effect → Bool
  | .feedConnect _ | .goListenAndServe _ | .newRPCEthClient _ | .chainID | .newMonitor _ _
  | .monClose | .goStartNodeHealthCheck | .startInboxReader _ _ | .getKeystore _
  | .waitForBalance _ | .txdbNew _ | .dbClose | .setupBatcher _ _ _ _
  | .goLaunchPublicServer _ _ => true
  | _ => false

/-- The effects that lines 132-206 can perform. -/
def Effect.setupPhase : Effect → Bool
  | .feedConnect _ | .goListenAndServe _ | .newRPCEthClient _ | .chainID | .newMonitor _ _
  | .goStartNodeHealthCheck | .healthSend _ | .nodehealthInit | .startInboxReader _ _
  | .sleep _ => true
  | .log level _ => level == .debug || level == .info || level == .warn
  | _ => false

/-- The effects of the end of a run: the receive of the final `select` and the deferred
calls. -/
def Effect.terminal : Effect → Bool
  | .selectRecv _ | .dbClose | .monClose | .cancelFunc => true
  | .log level _ => level == .noLevel
  | _ => false

/-- A stretch that, whenever it ends the call by `return`, ends its trace with the shutdown
line. -/
def Step.LogsShutdown {α : Type} : Step α → Prop
  | .halt (.returned _) t => t.getLast? = some shutdownLog
  | _ => True

/-! ## The traces of successful stretches, and what it means to reach a line -/

/-- The trace of the retry loop when calls `a`, ..., `a + K - 1` fail and call `a + K`
succeeds. -/
def retryTrace : Nat → Nat → List Effect
  | 0, a => [.startInboxReader a true]
  | K + 1, a => failedRound a ++ retryTrace K (a + 1)

/-- The trace of lines 132-143 when the feed connects (or the node is the sequencer). -/
def feedTrace (f : Flags) : List Effect :=
  if f.sequencerMode = false then [.feedConnect f.sequencerURL] else []

/-- The trace of lines 145-193 when the L1 client, the chain id and the monitor succeed. -/
def chainTrace (w : World) (f : Flags) : List Effect :=
  (if f.enablePProf then [.goListenAndServe "localhost:8081"] else [])
  ++ [.newRPCEthClient (w.parseRollupCommand f.args).ethURL, .chainID,
      .log .debug "connected to l1 chain", .log .info "Launching arbitrum node",
      .newMonitor (w.filepathJoin (w.parseRollupCommand f.args).validatorFolder "checkpoint_db")
        (w.filepathJoin (w.parseRollupCommand f.args).validatorFolder "arbos.mexe"),
      .goStartNodeHealthCheck]
  ++ healthConfig f (w.parseRollupCommand f.args)

/-- The trace of lines 132-206 when everything up to the inbox reader succeeds. -/
def setupTrace (w : World) (f : Flags) (K : Nat) : List Effect :=
  feedTrace f ++ chainTrace w f ++ retryTrace K 0

/-- The trace of lines 216-238 when the keystore and the balance wait succeed. -/
def identityTrace (ra : RollupArgs) (auth : Auth) : List Effect :=
  [.getKeystore ra.validatorFolder, .log .info "Arbitrum node submitting batches",
   .waitForBalance auth.source]

/-- The trace of lines 263-298 when the database, the batcher and the server are built. -/
def launchTrace (f : Flags) (sel : ModeSelection) : List Effect :=
  .txdbNew (100 * Millisecond)
  :: ((if f.waitToCatchUp then [.waitToCatchUp] else [])
  ++ [.setupBatcher (wrapInt64 (f.maxBatchTime * Second)) sel.batcherMode sel.dataSigner
        sel.broadcasterSettings,
      .newServer, .generateWeb3Server, .goLaunchPublicServer "8547" "8548"])

/-- Everything up to and including the inbox reader succeeds: the flags parse to `f`, the
arguments are accepted, the feed (when subscribed) connects and gives `feed`, the L1 client is
`eth`, the chain id is `cid`, the monitor is `mon`, and the inbox reader starts as `reader`
on call `K` after `K` failed calls. -/
structure ReachesModeSelection (w : World) (f : Flags) (feed : Feed) (eth : EthClient)
    (cid : Int) (mon : Monitor) (K : Nat) (reader : InboxReader) : Prop where
  parse : w.parse = .ok f
  nargs : f.args.length = 3
  role : f.sequencerMode = true ∨ f.sequencerURL ≠ ""
  logFlags : w.parseLogFlags f.gethLogLevel f.arbLogLevel = none
  feedOk : (f.sequencerMode = true ∧ feed = .fresh 128) ∨
    (f.sequencerMode = false ∧ w.connect f.sequencerURL = .ok feed)
  client : w.newRPCEthClient (w.parseRollupCommand f.args).ethURL = .ok eth
  chain : w.chainID eth = .ok cid
  monitor : w.newMonitor
    (w.filepathJoin (w.parseRollupCommand f.args).validatorFolder "checkpoint_db")
    (w.filepathJoin (w.parseRollupCommand f.args).validatorFolder "arbos.mexe") = .ok mon
  retries : ∀ n, n < K →
    ∃ err, w.startInboxReader n eth (w.parseRollupCommand f.args).address feed = .error err
  started : w.startInboxReader K eth (w.parseRollupCommand f.args).address feed = .ok reader

/-- Everything before the final `select` succeeds: the run reaches mode selection, mode
selection gives `sel` with trace `tsel`, and the database, the batcher and the server are
built. -/
structure ReachesSupervisor (w : World) (f : Flags) (feed : Feed) (eth : EthClient)
    (cid : Int) (mon : Monitor) (K : Nat) (reader : InboxReader) (sel : ModeSelection)
    (tsel : List Effect) (db : TxDB) (batch : Batcher) (srv : Web3Server) : Prop where
  setup : ReachesModeSelection w f feed eth cid mon K reader
  mode : selectBatcherMode w f (w.parseRollupCommand f.args) eth cid mon reader
    = .next sel tsel
  store : w.txdbNew mon.core mon.nodeStore (w.parseRollupCommand f.args).address
    (100 * Millisecond) = .ok db
  batcher : w.setupBatcher eth (w.parseRollupCommand f.args).address db
    (wrapInt64 (f.maxBatchTime * Second)) sel.batcherMode sel.dataSigner
    sel.broadcasterSettings = .ok batch
  server : w.generateWeb3Server batch (w.parseRollupCommand f.args).address db = .ok srv

/-! ## Example command lines and worlds -/

/-- Positional arguments for the example runs: validator folder, L1 URL, rollup address. -/
def demoArgs : List String := ["/data/validator", "http://localhost:7545", "0x1234"]

/-- The flags of the example runs: the defaults, with three positional arguments. -/
def demoFlags : Flags := defaultFlags ⟨0⟩ "info" "info" demoArgs

/-- The sequencer scenario: the defaults, three arguments, and `--sequencer`. -/
def sequencerFlags : Flags := { demoFlags with sequencerMode := true }

/-- Both `--sequencer` and `--forward-url=http://x`. -/
def sequencerForwardFlags : Flags :=
  { demoFlags with sequencerMode := true, forwardTxURL := "http://x" }

/-- A node that is neither sequencer nor forwarder, with a feed URL and an inbox address. -/
def inboxFlags : Flags :=
  { demoFlags with sequencerURL := "ws://feed:9642", inboxAddressStr := "0xabcd" }

/-- A node that is neither sequencer nor forwarder, with a feed URL and no inbox address. -/
def feedOnlyFlags : Flags := { demoFlags with sequencerURL := "ws://feed:9642" }

/-- An example world: the command line parses to `f`, every collaborator succeeds, the inbox
reader fails on call 0 and starts on call 1, and `cancelChan` fires at instant 2 of the
final wait. -/
def demoWorld (f : Flags) : World where
  parse := .ok f
  parseLogFlags := fun _ _ => none
  connect := fun _ => .ok (.connected 1)
  parseRollupCommand := fun args => ⟨args.getD 0 "", args.getD 1 "", ⟨4660⟩⟩
  newRPCEthClient := fun _ => .ok ⟨1⟩
  chainID := fun _ => .ok 1337
  filepathJoin := fun dir name => dir ++ "/" ++ name
  newMonitor := fun _ _ => .ok ⟨⟨1⟩, ⟨1⟩⟩
  startInboxReader := fun n _ _ _ => if n < 1 then .error ⟨"connection refused"⟩ else .ok ⟨n⟩
  getKeystore := fun _ _ _ => .ok (⟨⟨51966⟩⟩, some ⟨1⟩)
  hexToAddress := fun s => ⟨s.length⟩
  waitForBalance := fun _ _ _ => none
  txdbNew := fun _ _ _ _ => .ok ⟨1⟩
  setupBatcher := fun _ _ _ _ _ _ _ => .ok ⟨1⟩
  generateWeb3Server := fun _ _ _ => .ok ⟨1⟩
  timeline := fun t => ⟨none, none, t == 2, 0⟩

/-- The example world with a feed URL, in which the feed refuses the connection. -/
def feedDownWorld : World :=
  { demoWorld feedOnlyFlags with connect := fun _ => .error ⟨"dial tcp: connection refused"⟩ }

/-- The example world with a value on `txDBErrChan` at instant 1, before the cancellation. -/
def storeFailsWorld : World :=
  { demoWorld sequencerFlags with
    timeline := fun t => ⟨if t = 1 then some ⟨"core thread failed"⟩ else none, none, t == 2, 0⟩ }

/-- The example world with a value on `errChan` at instant 0, before the cancellation. -/
def serverFailsWorld : World :=
  { demoWorld sequencerFlags with
    timeline := fun t => ⟨none, if t = 0 then some ⟨"listen tcp :8547: bind"⟩ else none,
      t == 2, 0⟩ }

/-- The mode selection of the example world under `--sequencer`. -/
def demoSelection : ModeSelection :=
  ⟨.sequencer ⟨⟨51966⟩⟩ ⟨1⟩ ⟨1⟩ 12, some ⟨1⟩,
    ⟨"0.0.0.0:9642", 128, 1, 2 * Second, 5 * Second, 15 * Second⟩⟩

/-! ## Sequencing lemmas -/

@[simp] theorem Step.after_next {α : Type} (t t2 : List Effect) (a : α) :
    (Step.next a t2).after t = .next a (t ++ t2) := rfl

@[simp] theorem Step.after_halt {α : Type} (t t2 : List Effect) (e : Exit) :
    (Step.halt e t2 : Step α).after t = .halt e (t ++ t2) := rfl

@[simp] theorem Step.after_nil {α : Type} (s : Step α) : s.after [] = s := by
  cases s <;> rfl

@[simp] theorem Step.after_after {α : Type} (s : Step α) (t u : List Effect) :
    (s.after u).after t = s.after (t ++ u) := by
  cases s <;> simp

@[simp] theorem Step.next_bind {α β : Type} (a : α) (t : List Effect) (k : α → Step β) :
    (Step.next a t >>= k) = (k a).after t := rfl

@[simp] theorem Step.halt_bind {α β : Type} (e : Exit) (t : List Effect) (k : α → Step β) :
    ((Step.halt e t : Step α) >>= k) = .halt e t := rfl

@[simp] theorem Step.pure_eq {α : Type} (a : α) : (pure a : Step α) = .next a [] := rfl

@[simp] theorem Step.after_bind {α β : Type} (s : Step α) (t : List Effect) (k : α → Step β) :
    (s.after t >>= k) = (s >>= k).after t := by
  cases s <;> simp

theorem Step.run_after (s : Step Empty) (t : List Effect) :
    (s.after t).run = ⟨s.run.exit, t ++ s.run.trace⟩ := by
  cases s with
  | next a _ => exact nomatch a
  | halt e u => rfl

/-! ## The stretches under success -/

/-- The retry loop, given enough fuel, returns the reader of the first successful call. -/
theorem inboxReaderLoop_eq (start : Nat → Except GoErr InboxReader) (reader : InboxReader) :
    ∀ (K a fuel : Nat), (∀ n, n < K → ∃ err, start (a + n) = .error err) →
      start (a + K) = .ok reader → K < fuel →
      inboxReaderLoop start fuel a = .next reader (retryTrace K a) := by
  intro K
  induction K with
  | zero =>
    intro a fuel _ hok hfuel
    obtain ⟨fuel, rfl⟩ : ∃ m, fuel = m + 1 := ⟨fuel - 1, by omega⟩
    simp only [Nat.add_zero] at hok
    simp [inboxReaderLoop, hok, retryTrace]
  | succ K ih =>
    intro a fuel hfail hok hfuel
    obtain ⟨fuel, rfl⟩ : ∃ m, fuel = m + 1 := ⟨fuel - 1, by omega⟩
    obtain ⟨err, herr⟩ := hfail 0 (by omega)
    simp only [Nat.add_zero] at herr
    have hrec := ih (a + 1) fuel
      (fun n hn => by
        obtain ⟨e, he⟩ := hfail (n + 1) (by omega)
        exact ⟨e, by rw [← he]; congr 1; omega⟩)
      (by rw [← hok]; congr 1; omega) (by omega)
    simp [inboxReaderLoop, herr, hrec, retryTrace]

/-- A run that reaches mode selection is the setup trace followed by mode selection and
the rest. -/
theorem startupSteps_of_reaches {w : World} {f : Flags} {feed : Feed} {eth : EthClient}
    {cid : Int} {mon : Monitor} {K : Nat} {reader : InboxReader}
    (h : ReachesModeSelection w f feed eth cid mon K reader) (fuel : Nat) (hfuel : K < fuel) :
    startupSteps w fuel =
      (selectBatcherMode w f (w.parseRollupCommand f.args) eth cid mon reader >>=
        fun sel => launchAndSupervise w f (w.parseRollupCommand f.args) eth mon sel fuel).after
        (feedTrace f ++ chainTrace w f ++ retryTrace K 0) := by
  have hloop := inboxReaderLoop_eq
    (fun n => w.startInboxReader n eth (w.parseRollupCommand f.args).address feed) reader K 0 fuel
    (fun n hn => by simpa using h.retries n hn) (by simpa using h.started) hfuel
  have hA : parseAndValidate w = .next f [] := by
    have hr := h.role
    simp only [parseAndValidate, h.parse, h.nargs, h.logFlags]
    rcases hr with hr | hr <;> simp [hr, emit]
  have hB : subscribeFeed w f = .next feed (feedTrace f) := by
    rcases h.feedOk with ⟨hs, hf⟩ | ⟨hs, hf⟩
    · simp [subscribeFeed, feedTrace, hs, hf]
    · have hu : f.sequencerURL ≠ "" := by
        rcases h.role with hr | hr
        · simp [hs] at hr
        · exact hr
      simp [subscribeFeed, feedTrace, hs, hf, hu, emit]
  have hC : openChain w f = .next (w.parseRollupCommand f.args, eth, cid, mon) (chainTrace w f) := by
    by_cases hp : f.enablePProf = true <;>
      simp [openChain, h.client, h.chain, h.monitor, chainTrace, hp, emit]
  simp [startupSteps, hA, hB, hC, hloop]

/-! ## Argument check (lines 116-126) -/

/-- C1: when the flags parse and either the number of positional arguments is not 3, or the
sequencer flag is off and the sequencer feed URL is empty, `startup` returns the
"invalid arguments" error, and its whole trace is the three usage lines followed by the two
deferred calls: no effect that reaches the network or the disk is performed. -/
theorem startup_rejects_invalid_arguments (w : World) (f : Flags) (fuel : Nat)
    (hparse : w.parse = .ok f)
    (hbad : f.args.length ≠ 3 ∨ (f.sequencerMode = false ∧ f.sequencerURL = "")) :
    startup w fuel = ⟨.returned (some invalidArguments), usageLines ++ defers0⟩ ∧
    ∀ e ∈ (startup w fuel).trace, e.netOrDisk = false := by
  have hA : parseAndValidate w = .halt (.returned (some invalidArguments))
      (usageLines ++ defers0) := by
    simp only [parseAndValidate, hparse]
    rw [if_pos hbad]
    simp [emit, ret]
  have hrun : startup w fuel = ⟨.returned (some invalidArguments), usageLines ++ defers0⟩ := by
    simp [startup, startupSteps, hA, Step.run]
  refine ⟨hrun, ?_⟩
  rw [hrun]
  intro e he
  simp [usageLines, defers0, shutdownLog] at he
  rcases he with rfl | rfl | rfl | rfl | rfl <;> rfl

/-- Witness for C1: the default flags with three arguments (sequencer off, no feed URL). -/
theorem startup_rejects_invalid_arguments_witness :
    startup (demoWorld demoFlags) 5 = ⟨.returned (some invalidArguments), usageLines ++ defers0⟩ ∧
    ∀ e ∈ (startup (demoWorld demoFlags) 5).trace, e.netOrDisk = false :=
  startup_rejects_invalid_arguments (demoWorld demoFlags) demoFlags 5 rfl (Or.inr ⟨rfl, rfl⟩)

/-! ## Retry loop (lines 195-206) -/

theorem attemptsOf_retryTrace (K a : Nat) :
    attemptsOf (retryTrace K a) = (List.range K).map (fun n => (a + n, false)) ++ [(a + K, true)] := by
  induction K generalizing a with
  | zero => simp [retryTrace, attemptsOf, Effect.asAttempt]
  | succ K ih =>
    have ih1 := ih (a + 1)
    simp only [attemptsOf] at ih1 ⊢
    simp only [retryTrace, failedRound, List.filterMap_append, ih1, List.range_succ_eq_map]
    simp [Effect.asAttempt, Function.comp_def, Nat.add_assoc, Nat.add_comm 1]

theorem sleepsOf_retryTrace (K a : Nat) :
    sleepsOf (retryTrace K a) = List.replicate K (Second * 5) := by
  induction K generalizing a with
  | zero => simp [retryTrace, sleepsOf, Effect.asSleep]
  | succ K ih =>
    have ih1 := ih (a + 1)
    simp only [sleepsOf] at ih1 ⊢
    simp only [retryTrace, failedRound, List.filterMap_append, ih1, List.replicate_succ]
    simp [Effect.asSleep]

theorem getLast_retryTrace (K a : Nat) :
    (retryTrace K a).getLast? = some (.startInboxReader (a + K) true) := by
  induction K generalizing a with
  | zero => simp [retryTrace]
  | succ K ih =>
    have ih1 := ih (a + 1)
    have hne : retryTrace K (a + 1) ≠ [] := by
      intro h
      rw [h] at ih1
      simp at ih1
    rw [retryTrace, List.getLast?_append_of_ne_nil _ hne, ih1]
    congr 2
    omega

/-- C10: if `mon.StartInboxReader` fails on its first `K` calls and succeeds on the next one,
the retry loop (given fuel for `K + 1` rounds) ends with the reader of that call.  Its trace is
`K` failed rounds, each a call, a warning and a sleep of 5 seconds, then the successful call:
`K + 1` calls, `K` sleeps of 5 seconds (`K * 5` seconds in total), exactly one call that
started a reader, and nothing after it. -/
theorem inboxReaderLoop_retries (start : Nat → Except GoErr InboxReader) (K : Nat)
    (reader : InboxReader) (hfail : ∀ n, n < K → ∃ err, start n = .error err)
    (hok : start K = .ok reader) (fuel : Nat) (hfuel : K < fuel) :
    inboxReaderLoop start fuel 0 = .next reader (retryTrace K 0) ∧
    attemptsOf (retryTrace K 0) = (List.range K).map (fun n => (n, false)) ++ [(K, true)] ∧
    (attemptsOf (retryTrace K 0)).length = K + 1 ∧
    ((attemptsOf (retryTrace K 0)).filter (fun a => a.2)).length = 1 ∧
    sleepsOf (retryTrace K 0) = List.replicate K (Second * 5) ∧
    (sleepsOf (retryTrace K 0)).sum = (K : Int) * (5 * Second) ∧
    (retryTrace K 0).getLast? = some (.startInboxReader K true) := by
  have h1 := inboxReaderLoop_eq start reader K 0 fuel (by simpa using hfail) (by simpa using hok) hfuel
  have h2 := attemptsOf_retryTrace K 0
  simp only [Nat.zero_add] at h2
  have h3 := sleepsOf_retryTrace K 0
  have h4 := getLast_retryTrace K 0
  simp only [Nat.zero_add] at h4
  refine ⟨h1, h2, ?_, ?_, h3, ?_, h4⟩
  · rw [h2]; simp
  · rw [h2]; simp [List.filter_map, Function.comp_def]
  · rw [h3]; simp [Second]

/-- Witness for C10: two failures, then success. -/
theorem inboxReaderLoop_retries_witness :
    inboxReaderLoop (fun n => if n < 2 then .error ⟨"connection refused"⟩ else .ok ⟨n⟩) 3 0
      = .next ⟨2⟩ (retryTrace 2 0) ∧
    sleepsOf (retryTrace 2 0) = [Second * 5, Second * 5] ∧
    attemptsOf (retryTrace 2 0) = [(0, false), (1, false), (2, true)] :=
  have h := inboxReaderLoop_retries
    (fun n => if n < 2 then .error ⟨"connection refused"⟩ else .ok ⟨n⟩) 2 ⟨2⟩
    (fun n hn => ⟨⟨"connection refused"⟩, by simp [hn]⟩) (by simp) 3 (by decide)
  ⟨h.1, by rw [h.2.2.2.2.1]; rfl, by rw [h.2.1]; rfl⟩

/-! ## Mode selection (lines 208-261) -/

theorem selectBatcherMode_forwarder (w : World) (f : Flags) (ra : RollupArgs) (eth : EthClient)
    (cid : Int) (mon : Monitor) (reader : InboxReader) (hfwd : f.forwardTxURL ≠ "") :
    selectBatcherMode w f ra eth cid mon reader =
      .next ⟨.forwarder f.forwardTxURL, none, .zero⟩
        [.log .info "Arbitrum node starting in forwarder mode"] := by
  simp [selectBatcherMode, hfwd, emit]

theorem selectBatcherMode_sequencer (w : World) (f : Flags) (ra : RollupArgs) (eth : EthClient)
    (cid : Int) (mon : Monitor) (reader : InboxReader) (auth : Auth) (ds : Option DataSigner)
    (hfwd : f.forwardTxURL = "") (hseq : f.sequencerMode = true)
    (hks : w.getKeystore ra.validatorFolder f.walletArgs cid = .ok (auth, ds))
    (hbal : w.waitForBalance eth ⟨0⟩ auth.source = none) :
    selectBatcherMode w f ra eth cid mon reader =
      .next ⟨.sequencer auth mon.core reader f.delayedMessagesTargetDelay, ds,
          ⟨f.feedOutputAddr ++ ":" ++ f.feedOutputPort, 128, 1, 2 * Second,
            f.feedOutputPingInterval, f.feedOutputTimeout⟩⟩
        [.getKeystore ra.validatorFolder, .log .info "Arbitrum node submitting batches",
         .waitForBalance auth.source] := by
  simp [selectBatcherMode, hfwd, hseq, hks, hbal, emit]

theorem selectBatcherMode_missing_inbox (w : World) (f : Flags) (ra : RollupArgs)
    (eth : EthClient) (cid : Int) (mon : Monitor) (reader : InboxReader) (auth : Auth)
    (ds : Option DataSigner) (hfwd : f.forwardTxURL = "") (hseq : f.sequencerMode = false)
    (hks : w.getKeystore ra.validatorFolder f.walletArgs cid = .ok (auth, ds))
    (hinbox : f.inboxAddressStr = "") :
    selectBatcherMode w f ra eth cid mon reader =
      .halt (.returned (some missingInboxAddress)) (.getKeystore ra.validatorFolder :: defers1) := by
  simp [selectBatcherMode, hfwd, hseq, hks, hinbox, emit, ret]

theorem selectBatcherMode_inbox (w : World) (f : Flags) (ra : RollupArgs)
    (eth : EthClient) (cid : Int) (mon : Monitor) (reader : InboxReader) (auth : Auth)
    (ds : Option DataSigner) (hfwd : f.forwardTxURL = "") (hseq : f.sequencerMode = false)
    (hks : w.getKeystore ra.validatorFolder f.walletArgs cid = .ok (auth, ds))
    (hbal : w.waitForBalance eth ⟨0⟩ auth.source = none)
    (hinbox : f.inboxAddressStr ≠ "") :
    selectBatcherMode w f ra eth cid mon reader =
      .next ⟨if f.keepPendingState = true then .stateful auth (w.hexToAddress f.inboxAddressStr)
            else .stateless auth (w.hexToAddress f.inboxAddressStr), ds, .zero⟩
        [.getKeystore ra.validatorFolder, .log .info "Arbitrum node submitting batches",
         .waitForBalance auth.source] := by
  by_cases hk : f.keepPendingState = true <;>
    simp [selectBatcherMode, hfwd, hseq, hks, hbal, hinbox, hk, emit]

theorem Step.run_halt (e : Exit) (t : List Effect) :
    (Step.halt e t : Step Empty).run = ⟨e, t⟩ := rfl

theorem retryTrace_setupPhase (K a : Nat) : ∀ e ∈ retryTrace K a, e.setupPhase = true := by
  induction K generalizing a with
  | zero =>
    intro e he
    simp [retryTrace] at he
    subst he
    rfl
  | succ K ih =>
    intro e he
    simp only [retryTrace, failedRound, List.mem_append, List.mem_cons, List.mem_singleton,
      List.not_mem_nil, or_false] at he
    rcases he with (rfl | rfl | rfl) | he
    · rfl
    · rfl
    · rfl
    · exact ih (a + 1) e he

theorem setupTrace_setupPhase (w : World) (f : Flags) (K : Nat) :
    ∀ e ∈ setupTrace w f K, e.setupPhase = true := by
  intro e he
  simp only [setupTrace, List.mem_append] at he
  rcases he with (he | he) | he
  · simp only [feedTrace] at he
    split at he
    · simp at he; subst he; rfl
    · simp at he
  · simp only [chainTrace, healthConfig, List.mem_append, List.mem_cons, List.mem_singleton,
      List.not_mem_nil, or_false] at he
    rcases he with (he | he) | he
    · split at he
      · simp at he; subst he; rfl
      · simp at he
    · rcases he with rfl | rfl | rfl | rfl | rfl | rfl <;> rfl
    · rcases he with ((rfl | rfl | rfl | rfl) | he) | rfl | rfl
      · rfl
      · rfl
      · rfl
      · rfl
      · split at he
        · simp at he; subst he; rfl
        · simp at he
      · rfl
      · rfl
  · exact retryTrace_setupPhase K 0 e he

/-- When the transaction database opens, `rpc.SetupBatcher` is called with the mode, signer
and broadcaster settings that mode selection produced. -/
theorem launchAndSupervise_calls_setupBatcher (w : World) (f : Flags) (ra : RollupArgs)
    (eth : EthClient) (mon : Monitor) (sel : ModeSelection) (fuel : Nat) (db : TxDB)
    (hdb : w.txdbNew mon.core mon.nodeStore ra.address (100 * Millisecond) = .ok db) :
    Effect.setupBatcher (wrapInt64 (f.maxBatchTime * Second)) sel.batcherMode sel.dataSigner
      sel.broadcasterSettings ∈ (launchAndSupervise w f ra eth mon sel fuel).run.trace := by
  unfold launchAndSupervise launch supervise
  cases h2 : w.setupBatcher eth ra.address db (wrapInt64 (f.maxBatchTime * Second))
      sel.batcherMode sel.dataSigner sel.broadcasterSettings with
  | error err =>
    by_cases hw : f.waitToCatchUp = true <;> simp [hdb, h2, hw, emit, ret, Step.run]
  | ok batch =>
    cases h3 : w.generateWeb3Server batch ra.address db with
    | error err =>
      by_cases hw : f.waitToCatchUp = true <;> simp [hdb, h2, h3, hw, emit, ret, Step.run]
    | ok srv =>
      cases h4 : selectWait w.timeline fuel 0 with
      | none =>
        by_cases hw : f.waitToCatchUp = true <;> simp [hdb, h2, h3, h4, hw, emit, ret, Step.run]
      | some ev =>
        by_cases hw : f.waitToCatchUp = true <;> simp [hdb, h2, h3, h4, hw, emit, ret, Step.run]

/-- A run that reaches mode selection and chooses `sel` there: the rest of `startup` is lines
263-307 run with that choice. -/
theorem startup_of_selection {w : World} {f : Flags} {feed : Feed} {eth : EthClient}
    {cid : Int} {mon : Monitor} {K : Nat} {reader : InboxReader}
    (h : ReachesModeSelection w f feed eth cid mon K reader) (fuel : Nat) (hfuel : K < fuel)
    (sel : ModeSelection) (tsel : List Effect)
    (hsel : selectBatcherMode w f (w.parseRollupCommand f.args) eth cid mon reader
      = .next sel tsel) :
    startup w fuel =
      ⟨(launchAndSupervise w f (w.parseRollupCommand f.args) eth mon sel fuel).run.exit,
       setupTrace w f K ++ tsel ++
        (launchAndSupervise w f (w.parseRollupCommand f.args) eth mon sel fuel).run.trace⟩ := by
  rw [startup, startupSteps_of_reaches h fuel hfuel, hsel]
  simp [Step.run_after, setupTrace]

theorem setupPhase_not_batcher (e : Effect) (h : e.setupPhase = true) :
    e.asBatcherMode = none := by
  cases e <;> first | rfl | simp [Effect.setupPhase] at h

/-- C4: with `--sequencer`, three arguments and every other flag at its default, when the run
reaches mode selection and the keystore, the balance wait and the database succeed, the mode
is `Sequencer` with delay 12, and `rpc.SetupBatcher` is called with that mode, a batch time
of 10 seconds and the broadcaster settings: address "0.0.0.0:9642", 128 workers, queue 1,
I/O timeout 2 seconds, ping interval 5 seconds, no-response timeout 15 seconds. -/
theorem sequencer_scenario (w : World) (wa : WalletArgs) (gethLevel arbLevel : String)
    (args : List String) (feed : Feed) (eth : EthClient) (cid : Int) (mon : Monitor) (K : Nat)
    (reader : InboxReader) (auth : Auth) (ds : Option DataSigner) (db : TxDB)
    (h : ReachesModeSelection w
      { defaultFlags wa gethLevel arbLevel args with sequencerMode := true }
      feed eth cid mon K reader)
    (hks : w.getKeystore (w.parseRollupCommand args).validatorFolder wa cid = .ok (auth, ds))
    (hbal : w.waitForBalance eth ⟨0⟩ auth.source = none)
    (hdb : w.txdbNew mon.core mon.nodeStore (w.parseRollupCommand args).address
      (100 * Millisecond) = .ok db)
    (fuel : Nat) (hfuel : K < fuel) :
    selectBatcherMode w { defaultFlags wa gethLevel arbLevel args with sequencerMode := true }
        (w.parseRollupCommand args) eth cid mon reader =
      .next ⟨.sequencer auth mon.core reader 12, ds,
          ⟨"0.0.0.0:9642", 128, 1, 2 * Second, 5 * Second, 15 * Second⟩⟩
        (identityTrace (w.parseRollupCommand args) auth) ∧
    Effect.setupBatcher (10 * Second) (.sequencer auth mon.core reader 12) ds
        ⟨"0.0.0.0:9642", 128, 1, 2 * Second, 5 * Second, 15 * Second⟩
      ∈ (startup w fuel).trace := by
  have hsel := selectBatcherMode_sequencer w
    { defaultFlags wa gethLevel arbLevel args with sequencerMode := true }
    (w.parseRollupCommand args) eth cid mon reader auth ds rfl rfl hks hbal
  have hsel2 : selectBatcherMode w
      { defaultFlags wa gethLevel arbLevel args with sequencerMode := true }
      (w.parseRollupCommand args) eth cid mon reader =
      .next ⟨.sequencer auth mon.core reader 12, ds,
          ⟨"0.0.0.0:9642", 128, 1, 2 * Second, 5 * Second, 15 * Second⟩⟩
        (identityTrace (w.parseRollupCommand args) auth) := by
    rw [hsel]; rfl
  refine ⟨hsel2, ?_⟩
  rw [startup_of_selection h fuel hfuel _ _ hsel2]
  have hcall := launchAndSupervise_calls_setupBatcher w
    { defaultFlags wa gethLevel arbLevel args with sequencerMode := true }
    (w.parseRollupCommand args) eth mon
    ⟨.sequencer auth mon.core reader 12, ds,
      ⟨"0.0.0.0:9642", 128, 1, 2 * Second, 5 * Second, 15 * Second⟩⟩ fuel db hdb
  have hten : wrapInt64 (10 * Second) = 10 * Second := by decide
  change Effect.setupBatcher (wrapInt64 (10 * Second)) _ _ _ ∈ _ at hcall
  rw [hten] at hcall
  exact List.mem_append_right _ hcall

/-- Witness for C4: the sequencer scenario in the example world. -/
theorem sequencer_scenario_witness :
    Effect.setupBatcher (10 * Second) (.sequencer ⟨⟨51966⟩⟩ ⟨1⟩ ⟨1⟩ 12) (some ⟨1⟩)
        ⟨"0.0.0.0:9642", 128, 1, 2 * Second, 5 * Second, 15 * Second⟩
      ∈ (startup (demoWorld sequencerFlags) 5).trace :=
  (sequencer_scenario (demoWorld sequencerFlags) ⟨0⟩ "info" "info" demoArgs
    (.fresh 128) ⟨1⟩ 1337 ⟨⟨1⟩, ⟨1⟩⟩ 1 ⟨1⟩ ⟨⟨51966⟩⟩ (some ⟨1⟩) ⟨1⟩
    ⟨rfl, rfl, Or.inl rfl, rfl, Or.inl ⟨rfl, rfl⟩, rfl, rfl, rfl,
      fun _ hn => ⟨⟨"connection refused"⟩, if_pos hn⟩, rfl⟩
    rfl rfl rfl 5 (by decide)).2

/-- A run that reaches mode selection and ends there. -/
theorem startup_of_selection_halt {w : World} {f : Flags} {feed : Feed} {eth : EthClient}
    {cid : Int} {mon : Monitor} {K : Nat} {reader : InboxReader}
    (h : ReachesModeSelection w f feed eth cid mon K reader) (fuel : Nat) (hfuel : K < fuel)
    (e : Exit) (t : List Effect)
    (hsel : selectBatcherMode w f (w.parseRollupCommand f.args) eth cid mon reader
      = .halt e t) :
    startup w fuel = ⟨e, setupTrace w f K ++ t⟩ := by
  rw [startup, startupSteps_of_reaches h fuel hfuel, hsel]
  simp [Step.run_halt, setupTrace]

/-- C5: in a run that reaches mode selection with the sequencer flag off and no forward URL,
the keystore giving `auth` and the balance wait succeeding: if the inbox address string is
empty, `startup` returns the missing-inbox-address error right after the keystore call and
never calls `rpc.SetupBatcher`; otherwise the mode is `Stateful` when `--pending` is set and
`Stateless` when it is not, with `auth` and `common.HexToAddress` of the configured string,
and the rest of `startup` runs with that mode. -/
theorem stateful_stateless_selected (w : World) (f : Flags) (feed : Feed) (eth : EthClient)
    (cid : Int) (mon : Monitor) (K : Nat) (reader : InboxReader) (auth : Auth)
    (ds : Option DataSigner)
    (h : ReachesModeSelection w f feed eth cid mon K reader)
    (hseq : f.sequencerMode = false) (hfwd : f.forwardTxURL = "")
    (hks : w.getKeystore (w.parseRollupCommand f.args).validatorFolder f.walletArgs cid
      = .ok (auth, ds))
    (hbal : w.waitForBalance eth ⟨0⟩ auth.source = none)
    (fuel : Nat) (hfuel : K < fuel) :
    (f.inboxAddressStr = "" →
      startup w fuel = ⟨.returned (some missingInboxAddress),
        setupTrace w f K ++ .getKeystore (w.parseRollupCommand f.args).validatorFolder
          :: defers1⟩ ∧
      (startup w fuel).trace.filterMap Effect.asBatcherMode = []) ∧
    (f.inboxAddressStr ≠ "" →
      selectBatcherMode w f (w.parseRollupCommand f.args) eth cid mon reader =
        .next ⟨if f.keepPendingState = true
              then .stateful auth (w.hexToAddress f.inboxAddressStr)
              else .stateless auth (w.hexToAddress f.inboxAddressStr), ds, .zero⟩
          (identityTrace (w.parseRollupCommand f.args) auth) ∧
      startup w fuel =
        ⟨(launchAndSupervise w f (w.parseRollupCommand f.args) eth mon
            ⟨if f.keepPendingState = true
              then .stateful auth (w.hexToAddress f.inboxAddressStr)
              else .stateless auth (w.hexToAddress f.inboxAddressStr), ds, .zero⟩ fuel).run.exit,
         setupTrace w f K ++ identityTrace (w.parseRollupCommand f.args) auth ++
          (launchAndSupervise w f (w.parseRollupCommand f.args) eth mon
            ⟨if f.keepPendingState = true
              then .stateful auth (w.hexToAddress f.inboxAddressStr)
              else .stateless auth (w.hexToAddress f.inboxAddressStr), ds, .zero⟩
            fuel).run.trace⟩) := by
  constructor
  · intro hinbox
    have hrun := startup_of_selection_halt h fuel hfuel _ _
      (selectBatcherMode_missing_inbox w f (w.parseRollupCommand f.args) eth cid mon reader
        auth ds hfwd hseq hks hinbox)
    refine ⟨hrun, ?_⟩
    rw [hrun, List.filterMap_eq_nil_iff]
    intro e he
    simp only [List.mem_append, List.mem_cons] at he
    rcases he with he | rfl | he
    · exact setupPhase_not_batcher e (setupTrace_setupPhase w f K e he)
    · rfl
    · simp [defers1, defers0, shutdownLog] at he
      rcases he with rfl | rfl | rfl <;> rfl
  · intro hinbox
    have hsel := selectBatcherMode_inbox w f (w.parseRollupCommand f.args) eth cid mon reader
      auth ds hfwd hseq hks hbal hinbox
    exact ⟨hsel, startup_of_selection h fuel hfuel _ _ hsel⟩

/-- Witness for C5: a feed URL and an inbox address, `--pending` off: the mode is
`Stateless`. -/
theorem stateful_stateless_selected_witness :
    selectBatcherMode (demoWorld inboxFlags) inboxFlags
        ((demoWorld inboxFlags).parseRollupCommand inboxFlags.args) ⟨1⟩ 1337 ⟨⟨1⟩, ⟨1⟩⟩ ⟨1⟩ =
      .next ⟨.stateless ⟨⟨51966⟩⟩ ⟨6⟩, some ⟨1⟩, .zero⟩
        (identityTrace ((demoWorld inboxFlags).parseRollupCommand inboxFlags.args) ⟨⟨51966⟩⟩) :=
  ((stateful_stateless_selected (demoWorld inboxFlags) inboxFlags (.connected 1) ⟨1⟩ 1337
    ⟨⟨1⟩, ⟨1⟩⟩ 1 ⟨1⟩ ⟨⟨51966⟩⟩ (some ⟨1⟩)
    ⟨rfl, rfl, Or.inr (by decide), rfl, Or.inr ⟨rfl, rfl⟩, rfl, rfl, rfl,
      fun _ hn => ⟨⟨"connection refused"⟩, if_pos hn⟩, rfl⟩
    rfl rfl rfl rfl 5 (by decide)).2 (by decide)).1

/-- C6, as stated, fails: with both `--sequencer` and `--forward-url=http://x` the run reaches
mode selection, and the mode passed to `rpc.SetupBatcher` is `Forwarder`, not `Sequencer`:
line 211 tests the forward URL first. -/
theorem sequencer_flag_with_forward_url :
    sequencerForwardFlags.sequencerMode = true ∧
    (startup (demoWorld sequencerForwardFlags) 5).trace.filterMap Effect.asBatcherMode
      = [.forwarder "http://x"] := by
  decide

/-- C6, amended: in a run that reaches mode selection with the sequencer flag on and no
forward URL, the keystore giving `auth` and the balance wait succeeding, the mode is
`Sequencer` with `auth`, the monitor's core, the inbox reader the retry loop returned and the
configured delay, and the rest of `startup` runs with that mode. -/
theorem sequencer_mode_selected (w : World) (f : Flags) (feed : Feed) (eth : EthClient)
    (cid : Int) (mon : Monitor) (K : Nat) (reader : InboxReader) (auth : Auth)
    (ds : Option DataSigner)
    (h : ReachesModeSelection w f feed eth cid mon K reader)
    (hseq : f.sequencerMode = true) (hfwd : f.forwardTxURL = "")
    (hks : w.getKeystore (w.parseRollupCommand f.args).validatorFolder f.walletArgs cid
      = .ok (auth, ds))
    (hbal : w.waitForBalance eth ⟨0⟩ auth.source = none)
    (fuel : Nat) (hfuel : K < fuel) :
    selectBatcherMode w f (w.parseRollupCommand f.args) eth cid mon reader =
      .next ⟨.sequencer auth mon.core reader f.delayedMessagesTargetDelay, ds,
          ⟨f.feedOutputAddr ++ ":" ++ f.feedOutputPort, 128, 1, 2 * Second,
            f.feedOutputPingInterval, f.feedOutputTimeout⟩⟩
        (identityTrace (w.parseRollupCommand f.args) auth) ∧
    startup w fuel =
      ⟨(launchAndSupervise w f (w.parseRollupCommand f.args) eth mon
          ⟨.sequencer auth mon.core reader f.delayedMessagesTargetDelay, ds,
            ⟨f.feedOutputAddr ++ ":" ++ f.feedOutputPort, 128, 1, 2 * Second,
              f.feedOutputPingInterval, f.feedOutputTimeout⟩⟩ fuel).run.exit,
       setupTrace w f K ++ identityTrace (w.parseRollupCommand f.args) auth ++
        (launchAndSupervise w f (w.parseRollupCommand f.args) eth mon
          ⟨.sequencer auth mon.core reader f.delayedMessagesTargetDelay, ds,
            ⟨f.feedOutputAddr ++ ":" ++ f.feedOutputPort, 128, 1, 2 * Second,
              f.feedOutputPingInterval, f.feedOutputTimeout⟩⟩ fuel).run.trace⟩ := by
  have hsel := selectBatcherMode_sequencer w f (w.parseRollupCommand f.args) eth cid mon reader
    auth ds hfwd hseq hks hbal
  exact ⟨hsel, startup_of_selection h fuel hfuel _ _ hsel⟩

/-- Witness for C6, amended: `--sequencer` with a delay of 30. -/
theorem sequencer_mode_selected_witness :
    selectBatcherMode (demoWorld { sequencerFlags with delayedMessagesTargetDelay := 30 })
        { sequencerFlags with delayedMessagesTargetDelay := 30 }
        ((demoWorld sequencerFlags).parseRollupCommand demoArgs) ⟨1⟩ 1337 ⟨⟨1⟩, ⟨1⟩⟩ ⟨1⟩ =
      .next ⟨.sequencer ⟨⟨51966⟩⟩ ⟨1⟩ ⟨1⟩ 30, some ⟨1⟩,
          ⟨"0.0.0.0:9642", 128, 1, 2 * Second, 5 * Second, 15 * Second⟩⟩
        (identityTrace ((demoWorld sequencerFlags).parseRollupCommand demoArgs) ⟨⟨51966⟩⟩) :=
  (sequencer_mode_selected (demoWorld { sequencerFlags with delayedMessagesTargetDelay := 30 })
    { sequencerFlags with delayedMessagesTargetDelay := 30 } (.fresh 128) ⟨1⟩ 1337
    ⟨⟨1⟩, ⟨1⟩⟩ 1 ⟨1⟩ ⟨⟨51966⟩⟩ (some ⟨1⟩)
    ⟨rfl, rfl, Or.inl rfl, rfl, Or.inl ⟨rfl, rfl⟩, rfl, rfl, rfl,
      fun _ hn => ⟨⟨"connection refused"⟩, if_pos hn⟩, rfl⟩
    rfl rfl rfl rfl 5 (by decide)).1

/-! ## Configurations with no forward URL and no inbox address -/

theorem launch_of_reaches {w : World} {f : Flags} {feed : Feed} {eth : EthClient}
    {cid : Int} {mon : Monitor} {K : Nat} {reader : InboxReader} {sel : ModeSelection}
    {tsel : List Effect} {db : TxDB} {batch : Batcher} {srv : Web3Server}
    (h : ReachesSupervisor w f feed eth cid mon K reader sel tsel db batch srv) :
    launch w f (w.parseRollupCommand f.args) eth mon sel = .next () (launchTrace f sel) := by
  by_cases hw : f.waitToCatchUp = true <;>
    simp [launch, launchTrace, h.store, h.batcher, h.server, hw, emit]

/-- A run that reaches the final `select` is the traces of the earlier stretches followed by
the wait. -/
theorem startup_of_supervisor {w : World} {f : Flags} {feed : Feed} {eth : EthClient}
    {cid : Int} {mon : Monitor} {K : Nat} {reader : InboxReader} {sel : ModeSelection}
    {tsel : List Effect} {db : TxDB} {batch : Batcher} {srv : Web3Server}
    (h : ReachesSupervisor w f feed eth cid mon K reader sel tsel db batch srv)
    (fuel : Nat) (hfuel : K < fuel) :
    startup w fuel = ⟨(supervise w fuel).run.exit,
      setupTrace w f K ++ tsel ++ launchTrace f sel ++ (supervise w fuel).run.trace⟩ := by
  rw [startup_of_selection h.setup fuel hfuel sel tsel h.mode]
  simp [launchAndSupervise, launch_of_reaches h, Step.run_after]

theorem supervise_of_event (w : World) (fuel : Nat) (ev : SelectEvent)
    (hev : selectWait w.timeline fuel 0 = some ev) :
    (supervise w fuel).run = ⟨.returned ev.result, .selectRecv ev :: defers2⟩ := by
  simp [supervise, hev, ret, Step.run]

/-- The `select` returns the case drawn among those ready at the first instant at which any
is ready. -/
theorem selectWait_first (timeline : Nat → Ready) :
    ∀ (fuel t0 t : Nat), t0 ≤ t → t - t0 < fuel →
      (∀ s, t0 ≤ s → s < t → readyCases (timeline s) = []) →
      readyCases (timeline t) ≠ [] →
      ∃ ev ∈ readyCases (timeline t), selectWait timeline fuel t0 = some ev := by
  intro fuel
  induction fuel with
  | zero => intro t0 t _ h; omega
  | succ fuel ih =>
    intro t0 t hle hfuel hquiet hready
    rcases Nat.eq_or_lt_of_le hle with heq | hlt
    · subst heq
      cases hc : readyCases (timeline t0) with
      | nil => exact absurd hc hready
      | cons c cs =>
        refine ⟨(c :: cs).getD ((timeline t0).pick % (cs.length + 1)) c, ?_, ?_⟩
        · have hlt : (timeline t0).pick % (cs.length + 1) < (c :: cs).length := by
            simp only [List.length_cons]
            exact Nat.mod_lt _ (Nat.succ_pos _)
          rw [List.getD_eq_getElem _ _ hlt]
          exact List.getElem_mem _
        · simp [selectWait, hc]
    · have hnil := hquiet t0 (Nat.le_refl _) hlt
      obtain ⟨ev, hmem, hsel⟩ := ih (t0 + 1) t hlt (by omega)
        (fun s hs hst => hquiet s (by omega) hst) hready
      exact ⟨ev, hmem, by simp [selectWait, hnil, hsel]⟩

/-- When neither error channel ever holds a value and `cancelChan` is ready at instant `t`,
the `select` takes the cancellation case. -/
theorem selectWait_cancel_only (timeline : Nat → Ready)
    (hnone : ∀ s, (timeline s).txDBErr = none ∧ (timeline s).rpcErr = none) :
    ∀ (fuel t0 t : Nat), t0 ≤ t → t - t0 < fuel → (timeline t).cancel = true →
      selectWait timeline fuel t0 = some .cancel := by
  intro fuel
  induction fuel with
  | zero => intro t0 t _ h; omega
  | succ fuel ih =>
    intro t0 t hle hfuel hcancel
    by_cases hc : (timeline t0).cancel = true
    · simp [selectWait, readyCases, hnone t0, hc]
    · have hlt : t0 < t := by
        rcases Nat.eq_or_lt_of_le hle with heq | hlt
        · subst heq; exact absurd hcancel hc
        · exact hlt
      have hrec := ih (t0 + 1) t hlt (by omega) hcancel
      simp [selectWait, readyCases, hnone t0, hc, hrec]

theorem setupPhase_not_terminal (e : Effect) (h : e.setupPhase = true) :
    e.terminal = false := by
  cases e <;> first | rfl | simp [Effect.setupPhase] at h
  case log level msg =>
    cases level <;> first | rfl | simp [Effect.setupPhase] at h

/-- When mode selection falls through, its trace is the forwarder line or the identity
resolution. -/
theorem selectBatcherMode_next_trace (w : World) (f : Flags) (ra : RollupArgs)
    (eth : EthClient) (cid : Int) (mon : Monitor) (reader : InboxReader) (sel : ModeSelection)
    (t : List Effect) (h : selectBatcherMode w f ra eth cid mon reader = .next sel t) :
    t = [.log .info "Arbitrum node starting in forwarder mode"] ∨
    ∃ auth, t = identityTrace ra auth := by
  by_cases hfwd : f.forwardTxURL = ""
  · cases hks : w.getKeystore ra.validatorFolder f.walletArgs cid with
    | error err => simp [selectBatcherMode, hfwd, hks, emit, ret] at h
    | ok r =>
      obtain ⟨auth, ds⟩ := r
      cases hbal : w.waitForBalance eth ⟨0⟩ auth.source with
      | some err =>
        by_cases hseq : f.sequencerMode = true
        · simp [selectBatcherMode, hfwd, hks, hbal, hseq, emit, ret] at h
        · by_cases hinbox : f.inboxAddressStr = "" <;>
            simp [selectBatcherMode, hfwd, hks, hbal, hseq, hinbox, emit, ret] at h
      | none =>
        by_cases hseq : f.sequencerMode = true
        · rw [selectBatcherMode_sequencer w f ra eth cid mon reader auth ds hfwd hseq hks hbal]
            at h
          simp only [Step.next.injEq] at h
          exact Or.inr ⟨auth, h.2.symm⟩
        · have hseq2 : f.sequencerMode = false := by simpa using hseq
          by_cases hinbox : f.inboxAddressStr = ""
          · rw [selectBatcherMode_missing_inbox w f ra eth cid mon reader auth ds hfwd hseq2
              hks hinbox] at h
            simp at h
          · rw [selectBatcherMode_inbox w f ra eth cid mon reader auth ds hfwd hseq2 hks hbal
              hinbox] at h
            simp only [Step.next.injEq] at h
            exact Or.inr ⟨auth, h.2.symm⟩
  · rw [selectBatcherMode_forwarder w f ra eth cid mon reader hfwd] at h
    simp only [Step.next.injEq] at h
    exact Or.inl h.2.symm

/-- Nothing before the final `select` is a receive of the `select` or a deferred call. -/
theorem before_supervisor_not_terminal {w : World} {f : Flags} {feed : Feed} {eth : EthClient}
    {cid : Int} {mon : Monitor} {K : Nat} {reader : InboxReader} {sel : ModeSelection}
    {tsel : List Effect} {db : TxDB} {batch : Batcher} {srv : Web3Server}
    (h : ReachesSupervisor w f feed eth cid mon K reader sel tsel db batch srv) :
    ∀ e ∈ setupTrace w f K ++ tsel ++ launchTrace f sel, e.terminal = false := by
  intro e he
  simp only [List.mem_append] at he
  rcases he with (he | he) | he
  · exact setupPhase_not_terminal e (setupTrace_setupPhase w f K e he)
  · rcases selectBatcherMode_next_trace _ _ _ _ _ _ _ _ _ h.mode with ht | ⟨auth, ht⟩
    · rw [ht] at he
      simp at he
      subst he
      rfl
    · rw [ht] at he
      simp [identityTrace] at he
      rcases he with rfl | rfl | rfl <;> rfl
  · simp only [launchTrace, List.mem_cons, List.mem_append, List.mem_singleton] at he
    rcases he with rfl | he | rfl | rfl | rfl | he
    · rfl
    · split at he
      · simp at he; subst he; rfl
      · simp at he
    · rfl
    · rfl
    · rfl
    · simp at he
      subst he
      rfl

/-- No case of the `select` can proceed when both error channels are empty and `cancelChan`
is not ready. -/
theorem readyCases_quiet (r : Ready) (h1 : r.txDBErr = none) (h2 : r.rpcErr = none)
    (h3 : r.cancel = false) : readyCases r = [] := by
  simp [readyCases, h1, h2, h3]

/-- Some case of the `select` can proceed as soon as one channel holds a value or `cancelChan`
is ready. -/
theorem readyCases_ready (r : Ready)
    (h : r.txDBErr ≠ none ∨ r.rpcErr ≠ none ∨ r.cancel = true) : readyCases r ≠ [] := by
  intro hnil
  simp only [readyCases, List.append_eq_nil] at hnil
  obtain ⟨⟨h1, h2⟩, h3⟩ := hnil
  rcases h with h | h | h
  · cases hx : r.txDBErr with
    | none => exact h hx
    | some err => rw [hx] at h1; simp at h1
  · cases hx : r.rpcErr with
    | none => exact h hx
    | some err => rw [hx] at h2; simp at h2
  · rw [h] at h3
    simp at h3

/-- A case that can proceed received the value its channel holds. -/
theorem readyCases_mem (r : Ready) (ev : SelectEvent) (h : ev ∈ readyCases r) :
    (∃ err, ev = .txDBErr err ∧ r.txDBErr = some err) ∨
    (∃ err, ev = .rpcErr err ∧ r.rpcErr = some err) ∨
    (ev = .cancel ∧ r.cancel = true) := by
  simp only [readyCases, List.mem_append] at h
  rcases h with (h | h) | h
  · cases hx : r.txDBErr with
    | none => rw [hx] at h; simp at h
    | some err =>
      rw [hx] at h
      simp only [List.mem_singleton] at h
      exact Or.inl ⟨err, h, rfl⟩
  · cases hx : r.rpcErr with
    | none => rw [hx] at h; simp at h
    | some err =>
      rw [hx] at h
      simp only [List.mem_singleton] at h
      exact Or.inr (Or.inl ⟨err, h, rfl⟩)
  · cases hx : r.cancel with
    | false => rw [hx] at h; simp at h
    | true =>
      rw [hx] at h
      simp only [if_true, List.mem_singleton] at h
      exact Or.inr (Or.inr ⟨h, rfl⟩)

/-- C7: in a run that reaches the final `select`, let `t` be the first instant at which
`txDBErrChan` holds a value, `errChan` holds a value, or `cancelChan` is ready (at every
earlier instant both error channels are empty and `cancelChan` is not ready).  Then `startup`
returns, with exactly one of three results, each that of a channel ready at `t`: the error
held by `txDBErrChan`, the error held by `errChan`, or `nil` for the cancellation; the
receive is followed only by the deferred calls.  When only one of the three is ready at `t`,
that one decides: a value on `txDBErrChan` alone is returned, a value on `errChan` alone is
returned, the cancellation alone gives `nil`.  And when the error channels never hold a value
and `cancelChan` is ready at `t`, `startup` returns `nil`: the wait completes. -/
theorem supervisor_first_event_wins (w : World) (f : Flags) (feed : Feed) (eth : EthClient)
    (cid : Int) (mon : Monitor) (K : Nat) (reader : InboxReader) (sel : ModeSelection)
    (tsel : List Effect) (db : TxDB) (batch : Batcher) (srv : Web3Server)
    (h : ReachesSupervisor w f feed eth cid mon K reader sel tsel db batch srv)
    (fuel : Nat) (hfuel : K < fuel) (t : Nat) (ht : t < fuel) :
    ((∀ s, s < t → (w.timeline s).txDBErr = none ∧ (w.timeline s).rpcErr = none ∧
        (w.timeline s).cancel = false) →
      ((w.timeline t).txDBErr ≠ none ∨ (w.timeline t).rpcErr ≠ none ∨
        (w.timeline t).cancel = true) →
      (∃ err, (w.timeline t).txDBErr = some err ∧
        startup w fuel = ⟨.returned (some err),
          setupTrace w f K ++ tsel ++ launchTrace f sel ++
            .selectRecv (.txDBErr err) :: defers2⟩) ∨
      (∃ err, (w.timeline t).rpcErr = some err ∧
        startup w fuel = ⟨.returned (some err),
          setupTrace w f K ++ tsel ++ launchTrace f sel ++
            .selectRecv (.rpcErr err) :: defers2⟩) ∨
      ((w.timeline t).cancel = true ∧
        startup w fuel = ⟨.returned none,
          setupTrace w f K ++ tsel ++ launchTrace f sel ++
            .selectRecv .cancel :: defers2⟩)) ∧
    ((∀ s, s < t → (w.timeline s).txDBErr = none ∧ (w.timeline s).rpcErr = none ∧
        (w.timeline s).cancel = false) →
      ∀ err, (w.timeline t).txDBErr = some err → (w.timeline t).rpcErr = none →
        (w.timeline t).cancel = false →
        startup w fuel = ⟨.returned (some err),
          setupTrace w f K ++ tsel ++ launchTrace f sel ++
            .selectRecv (.txDBErr err) :: defers2⟩) ∧
    ((∀ s, s < t → (w.timeline s).txDBErr = none ∧ (w.timeline s).rpcErr = none ∧
        (w.timeline s).cancel = false) →
      ∀ err, (w.timeline t).rpcErr = some err → (w.timeline t).txDBErr = none →
        (w.timeline t).cancel = false →
        startup w fuel = ⟨.returned (some err),
          setupTrace w f K ++ tsel ++ launchTrace f sel ++
            .selectRecv (.rpcErr err) :: defers2⟩) ∧
    ((∀ s, (w.timeline s).txDBErr = none ∧ (w.timeline s).rpcErr = none) →
      (w.timeline t).cancel = true →
      startup w fuel = ⟨.returned none,
        setupTrace w f K ++ tsel ++ launchTrace f sel ++ .selectRecv .cancel :: defers2⟩) := by
  have hfirst : (∀ s, s < t → (w.timeline s).txDBErr = none ∧ (w.timeline s).rpcErr = none ∧
        (w.timeline s).cancel = false) →
      ((w.timeline t).txDBErr ≠ none ∨ (w.timeline t).rpcErr ≠ none ∨
        (w.timeline t).cancel = true) →
      (∃ err, (w.timeline t).txDBErr = some err ∧
        startup w fuel = ⟨.returned (some err),
          setupTrace w f K ++ tsel ++ launchTrace f sel ++
            .selectRecv (.txDBErr err) :: defers2⟩) ∨
      (∃ err, (w.timeline t).rpcErr = some err ∧
        startup w fuel = ⟨.returned (some err),
          setupTrace w f K ++ tsel ++ launchTrace f sel ++
            .selectRecv (.rpcErr err) :: defers2⟩) ∨
      ((w.timeline t).cancel = true ∧
        startup w fuel = ⟨.returned none,
          setupTrace w f K ++ tsel ++ launchTrace f sel ++
            .selectRecv .cancel :: defers2⟩) := by
    intro hquiet hready
    obtain ⟨ev, hmem, hsel⟩ := selectWait_first w.timeline fuel 0 t (Nat.zero_le _)
      (by omega)
      (fun s _ hs => readyCases_quiet _ (hquiet s hs).1 (hquiet s hs).2.1 (hquiet s hs).2.2)
      (readyCases_ready _ hready)
    have hrun : startup w fuel = ⟨.returned ev.result,
        setupTrace w f K ++ tsel ++ launchTrace f sel ++ .selectRecv ev :: defers2⟩ := by
      rw [startup_of_supervisor h fuel hfuel, supervise_of_event w fuel ev hsel]
    rcases readyCases_mem _ ev hmem with ⟨err, hev, hch⟩ | ⟨err, hev, hch⟩ | ⟨hev, hch⟩
    · subst hev
      exact Or.inl ⟨err, hch, hrun⟩
    · subst hev
      exact Or.inr (Or.inl ⟨err, hch, hrun⟩)
    · subst hev
      exact Or.inr (Or.inr ⟨hch, hrun⟩)
  refine ⟨hfirst, ?_, ?_, ?_⟩
  · intro hquiet err hstore hrpc hcancel
    rcases hfirst hquiet (Or.inl (by rw [hstore]; simp)) with
      ⟨e, he, hrun⟩ | ⟨e, he, _⟩ | ⟨hc, _⟩
    · rw [hstore] at he
      cases he
      exact hrun
    · rw [hrpc] at he
      cases he
    · rw [hcancel] at hc
      cases hc
  · intro hquiet err hrpc hstore hcancel
    rcases hfirst hquiet (Or.inr (Or.inl (by rw [hrpc]; simp))) with
      ⟨e, he, _⟩ | ⟨e, he, hrun⟩ | ⟨hc, _⟩
    · rw [hstore] at he
      cases he
    · rw [hrpc] at he
      cases he
      exact hrun
    · rw [hcancel] at hc
      cases hc
  · intro hnone hcancel
    have hsel := selectWait_cancel_only w.timeline hnone fuel 0 t (Nat.zero_le _)
      (by omega) hcancel
    rw [startup_of_supervisor h fuel hfuel, supervise_of_event w fuel _ hsel]
    rfl

/-- The `errChan` transition on an example world: the value on `errChan` at instant 0 is
returned, and `db.Close()` and the shutdown line each occur once, after the receive. -/
theorem serverFailsWorld_run :
    (startup serverFailsWorld 5).exit = .returned (some ⟨"listen tcp :8547: bind"⟩) ∧
    (startup serverFailsWorld 5).trace.count .dbClose = 1 ∧
    (startup serverFailsWorld 5).trace.count shutdownLog = 1 ∧
    (startup serverFailsWorld 5).trace.reverse.take 5 =
      [shutdownLog, .cancelFunc, .monClose, .dbClose,
       .selectRecv (.rpcErr ⟨"listen tcp :8547: bind"⟩)] := by
  decide

/-- Witness for C7: a value on `txDBErrChan` at instant 1 is returned, a value on `errChan`
at instant 0 is returned, and a cancellation alone at instant 2 gives `nil`. -/
theorem supervisor_first_event_wins_witness :
    (startup storeFailsWorld 5).exit = .returned (some ⟨"core thread failed"⟩) ∧
    (startup serverFailsWorld 5).exit = .returned (some ⟨"listen tcp :8547: bind"⟩) ∧
    (startup (demoWorld sequencerFlags) 5).exit = .returned none := by
  refine ⟨?_, ?_, ?_⟩
  · have hrun := (supervisor_first_event_wins storeFailsWorld sequencerFlags
      (.fresh 128) ⟨1⟩ 1337 ⟨⟨1⟩, ⟨1⟩⟩ 1 ⟨1⟩ demoSelection
      (identityTrace (storeFailsWorld.parseRollupCommand demoArgs) ⟨⟨51966⟩⟩) ⟨1⟩ ⟨1⟩ ⟨1⟩
      ⟨⟨rfl, rfl, Or.inl rfl, rfl, Or.inl ⟨rfl, rfl⟩, rfl, rfl, rfl,
          fun _ hn => ⟨⟨"connection refused"⟩, if_pos hn⟩, rfl⟩, rfl, rfl, rfl, rfl⟩
      5 (by decide) 1 (by decide)).2.1
      (fun s hs => by interval_cases s; exact ⟨rfl, rfl, rfl⟩)
      ⟨"core thread failed"⟩ rfl rfl rfl
    rw [hrun]
  · have hrun := (supervisor_first_event_wins serverFailsWorld sequencerFlags
      (.fresh 128) ⟨1⟩ 1337 ⟨⟨1⟩, ⟨1⟩⟩ 1 ⟨1⟩ demoSelection
      (identityTrace (serverFailsWorld.parseRollupCommand demoArgs) ⟨⟨51966⟩⟩) ⟨1⟩ ⟨1⟩ ⟨1⟩
      ⟨⟨rfl, rfl, Or.inl rfl, rfl, Or.inl ⟨rfl, rfl⟩, rfl, rfl, rfl,
          fun _ hn => ⟨⟨"connection refused"⟩, if_pos hn⟩, rfl⟩, rfl, rfl, rfl, rfl⟩
      5 (by decide) 0 (by decide)).2.2.1
      (fun s hs => absurd hs (Nat.not_lt_zero s))
      ⟨"listen tcp :8547: bind"⟩ rfl rfl rfl
    rw [hrun]
  · have hrun := (supervisor_first_event_wins (demoWorld sequencerFlags) sequencerFlags
      (.fresh 128) ⟨1⟩ 1337 ⟨⟨1⟩, ⟨1⟩⟩ 1 ⟨1⟩ demoSelection
      (identityTrace ((demoWorld sequencerFlags).parseRollupCommand demoArgs) ⟨⟨51966⟩⟩)
      ⟨1⟩ ⟨1⟩ ⟨1⟩
      ⟨⟨rfl, rfl, Or.inl rfl, rfl, Or.inl ⟨rfl, rfl⟩, rfl, rfl, rfl,
          fun _ hn => ⟨⟨"connection refused"⟩, if_pos hn⟩, rfl⟩, rfl, rfl, rfl, rfl⟩
      5 (by decide) 2 (by decide)).2.2.2
      (fun _ => ⟨rfl, rfl⟩) rfl
    rw [hrun]

/-- C8: in a run that reaches the final `select`, whichever case `ev` the `select` takes (a
value from `txDBErrChan`, a value from `errChan`, or the cancellation), the trace is the
effects up to the `select`, the receive `ev`, and the deferred calls.  Before the receive
there is no `db.Close()`, no shutdown line and no other receive; after it there is exactly
one of each of the two, so the whole trace has exactly one `db.Close()` and one shutdown
line. -/
theorem cleanup_exactly_once (w : World) (f : Flags) (feed : Feed) (eth : EthClient)
    (cid : Int) (mon : Monitor) (K : Nat) (reader : InboxReader) (sel : ModeSelection)
    (tsel : List Effect) (db : TxDB) (batch : Batcher) (srv : Web3Server)
    (h : ReachesSupervisor w f feed eth cid mon K reader sel tsel db batch srv)
    (fuel : Nat) (hfuel : K < fuel) (ev : SelectEvent)
    (hev : selectWait w.timeline fuel 0 = some ev) :
    (startup w fuel).trace
      = (setupTrace w f K ++ tsel ++ launchTrace f sel) ++ .selectRecv ev :: defers2 ∧
    (∀ e ∈ setupTrace w f K ++ tsel ++ launchTrace f sel, e.terminal = false) ∧
    (setupTrace w f K ++ tsel ++ launchTrace f sel).count .dbClose = 0 ∧
    (setupTrace w f K ++ tsel ++ launchTrace f sel).count shutdownLog = 0 ∧
    defers2.count .dbClose = 1 ∧ defers2.count shutdownLog = 1 ∧
    (startup w fuel).trace.count .dbClose = 1 ∧
    (startup w fuel).trace.count shutdownLog = 1 := by
  have hpre := before_supervisor_not_terminal h
  have hrun : (startup w fuel).trace
      = (setupTrace w f K ++ tsel ++ launchTrace f sel) ++ .selectRecv ev :: defers2 := by
    rw [startup_of_supervisor h fuel hfuel, supervise_of_event w fuel ev hev]
  have hdb : (setupTrace w f K ++ tsel ++ launchTrace f sel).count .dbClose = 0 := by
    rw [List.count_eq_zero]
    intro hmem
    exact absurd (hpre _ hmem) (by decide)
  have hlog : (setupTrace w f K ++ tsel ++ launchTrace f sel).count shutdownLog = 0 := by
    rw [List.count_eq_zero]
    intro hmem
    exact absurd (hpre _ hmem) (by decide)
  have hd1 : defers2.count .dbClose = 1 := by decide
  have hd2 : defers2.count shutdownLog = 1 := by decide
  refine ⟨hrun, hpre, hdb, hlog, hd1, hd2, ?_, ?_⟩
  · rw [hrun, List.count_append, hdb, List.count_cons, hd1]
    simp
  · rw [hrun, List.count_append, hlog, List.count_cons, hd2]
    simp [shutdownLog]

/-- Witness for C8: a value on `txDBErrChan` at instant 1, with the cancellation only at
instant 2. -/
theorem cleanup_exactly_once_witness :
    (startup storeFailsWorld 5).trace.count .dbClose = 1 ∧
    (startup storeFailsWorld 5).trace.count shutdownLog = 1 ∧
    (startup storeFailsWorld 5).trace.getLast? = some shutdownLog :=
  have h := cleanup_exactly_once storeFailsWorld sequencerFlags
    (.fresh 128) ⟨1⟩ 1337 ⟨⟨1⟩, ⟨1⟩⟩ 1 ⟨1⟩ demoSelection
    (identityTrace (storeFailsWorld.parseRollupCommand demoArgs) ⟨⟨51966⟩⟩) ⟨1⟩ ⟨1⟩ ⟨1⟩
    ⟨⟨rfl, rfl, Or.inl rfl, rfl, Or.inl ⟨rfl, rfl⟩, rfl, rfl, rfl,
        fun _ hn => ⟨⟨"connection refused"⟩, if_pos hn⟩, rfl⟩, rfl, rfl, rfl, rfl⟩
    5 (by decide) (.txDBErr ⟨"core thread failed"⟩) rfl
  ⟨h.2.2.2.2.2.2.1, h.2.2.2.2.2.2.2, by rw [h.1]; rfl⟩

/-! ## The shutdown message -/

theorem Step.logsShutdown_next {α : Type} (a : α) (t : List Effect) :
    (Step.next a t).LogsShutdown := trivial

theorem Step.logsShutdown_after {α : Type} (s : Step α) (t : List Effect)
    (h : s.LogsShutdown) : (s.after t).LogsShutdown := by
  cases s with
  | next a u => trivial
  | halt e u =>
    cases e with
    | returned err =>
      simp only [Step.after_halt, Step.LogsShutdown] at h ⊢
      have hne : u ≠ [] := by
        intro hu
        rw [hu] at h
        simp at h
      rw [List.getLast?_append_of_ne_nil _ hne, h]
    | osExit c => trivial
    | pending => trivial

theorem Step.logsShutdown_bind {α β : Type} (s : Step α) (k : α → Step β)
    (hs : s.LogsShutdown) (hk : ∀ a, (k a).LogsShutdown) : (s >>= k).LogsShutdown := by
  cases s with
  | next a u => exact Step.logsShutdown_after _ _ (hk a)
  | halt e u =>
    cases e with
    | returned err => exact hs
    | osExit c => trivial
    | pending => trivial

theorem logsShutdown_ret0 {α : Type} (err : Option GoErr) :
    (ret defers0 err : Step α).LogsShutdown := by
  simp [ret, Step.LogsShutdown, defers0]

theorem logsShutdown_ret1 {α : Type} (err : Option GoErr) :
    (ret defers1 err : Step α).LogsShutdown := by
  simp [ret, Step.LogsShutdown, defers1, defers0]

theorem logsShutdown_ret2 {α : Type} (err : Option GoErr) :
    (ret defers2 err : Step α).LogsShutdown := by
  simp [ret, Step.LogsShutdown, defers2, defers1, defers0]

theorem logsShutdown_emit (es : List Effect) : (emit es).LogsShutdown := trivial

theorem logsShutdown_pure {α : Type} (a : α) : (pure a : Step α).LogsShutdown := trivial

theorem logsShutdown_fatal {α : Type} (msg : String) : (logFatal msg : Step α).LogsShutdown :=
  trivial

theorem parseAndValidate_logsShutdown (w : World) : (parseAndValidate w).LogsShutdown := by
  unfold parseAndValidate
  repeat' first
    | exact logsShutdown_ret0 _
    | exact logsShutdown_emit _
    | exact logsShutdown_pure _
    | exact Step.logsShutdown_next _ _
    | apply Step.logsShutdown_bind
    | intro _
    | split

theorem subscribeFeed_logsShutdown (w : World) (f : Flags) :
    (subscribeFeed w f).LogsShutdown := by
  unfold subscribeFeed
  repeat' first
    | exact logsShutdown_ret0 _
    | exact logsShutdown_emit _
    | exact logsShutdown_pure _
    | exact logsShutdown_fatal _
    | exact Step.logsShutdown_next _ _
    | apply Step.logsShutdown_bind
    | intro _
    | split

theorem openChain_logsShutdown (w : World) (f : Flags) :
    (openChain w f).LogsShutdown := by
  unfold openChain
  repeat' first
    | exact logsShutdown_ret0 _
    | exact logsShutdown_emit _
    | exact logsShutdown_pure _
    | exact Step.logsShutdown_next _ _
    | apply Step.logsShutdown_bind
    | intro _
    | split

theorem inboxReaderLoop_logsShutdown (start : Nat → Except GoErr InboxReader) :
    ∀ (fuel a : Nat), (inboxReaderLoop start fuel a).LogsShutdown := by
  intro fuel
  induction fuel with
  | zero => intro a; trivial
  | succ fuel ih =>
    intro a
    unfold inboxReaderLoop
    split
    · trivial
    · exact Step.logsShutdown_after _ _ (ih (a + 1))

theorem selectBatcherMode_logsShutdown (w : World) (f : Flags) (ra : RollupArgs)
    (eth : EthClient) (cid : Int) (mon : Monitor) (reader : InboxReader) :
    (selectBatcherMode w f ra eth cid mon reader).LogsShutdown := by
  unfold selectBatcherMode
  repeat' first
    | exact logsShutdown_ret1 _
    | exact logsShutdown_emit _
    | exact logsShutdown_pure _
    | exact Step.logsShutdown_next _ _
    | apply Step.logsShutdown_bind
    | intro _
    | split

theorem launchAndSupervise_logsShutdown (w : World) (f : Flags) (ra : RollupArgs)
    (eth : EthClient) (mon : Monitor) (sel : ModeSelection) (fuel : Nat) :
    (launchAndSupervise w f ra eth mon sel fuel).LogsShutdown := by
  unfold launchAndSupervise launch supervise
  repeat' first
    | exact logsShutdown_ret1 _
    | exact logsShutdown_ret2 _
    | exact logsShutdown_emit _
    | exact logsShutdown_pure _
    | exact Step.logsShutdown_next _ _
    | exact Step.logsShutdown_after _ _ (logsShutdown_ret2 _)
    | exact trivial
    | apply Step.logsShutdown_bind
    | intro _
    | split

theorem startupSteps_logsShutdown (w : World) (fuel : Nat) :
    (startupSteps w fuel).LogsShutdown := by
  unfold startupSteps
  repeat' first
    | exact parseAndValidate_logsShutdown _
    | exact subscribeFeed_logsShutdown _ _
    | exact openChain_logsShutdown _ _
    | exact inboxReaderLoop_logsShutdown _ _ _
    | exact selectBatcherMode_logsShutdown _ _ _ _ _ _ _
    | exact launchAndSupervise_logsShutdown _ _ _ _ _ _ _
    | apply Step.logsShutdown_bind
    | intro _

/-- Every `return` of `startup` is followed by the deferred calls, the last of which writes
the shutdown line. -/
theorem startup_return_logs_shutdown (w : World) (fuel : Nat) (err : Option GoErr)
    (h : (startup w fuel).exit = .returned err) :
    (startup w fuel).trace.getLast? = some shutdownLog := by
  have hs := startupSteps_logsShutdown w fuel
  unfold startup at h ⊢
  cases hrun : startupSteps w fuel with
  | next a _ => exact nomatch a
  | halt e t =>
    rw [hrun] at hs h
    simp only [Step.run] at h ⊢
    subst h
    exact hs

/-- C9, the code at the failing input: when `broadcastClient.Connect()` fails, `log.Fatal`
ends the process with exit code 1 inside `startup`; the deferred calls do not run and the
shutdown message is not in the trace. -/
theorem feed_failure_skips_shutdown_log :
    startup feedDownWorld 5 = ⟨.osExit 1,
      [.feedConnect "ws://feed:9642", .log .fatal "unable to start broadcastclient"]⟩ ∧
    shutdownLog ∉ (startup feedDownWorld 5).trace := by
  decide

end ArbNode
